import Mathlib

/- Shallow embedding of the persona memory engine found in
   app/services/memory_service.py, together with the data model of
   app/models/ai_capabilities.py (the PersonaMemory row) and the persona
   row fields the service reads and writes (memory and learning flags,
   interaction counters). Timestamps are modelled as natural numbers,
   Python float importances as rationals (only comparisons occur, so the
   embedding is exact for the decimal constants involved), the database
   session as an explicit list of rows, and the ChromaDB vector index as
   the ascending-distance ranking of ids it would return for the query at
   hand. A raised HTTPException is modelled as an Except error value. -/

/-- A row of the persona_memories table (app/models/ai_capabilities.py). -/
structure PersonaMemory where
  id : Nat
  persona_id : Nat
  memory_type : String
  content : String
  context : Option String
  importance : ℚ
  last_accessed : Nat
  created_at : Nat
  expires_at : Option Nat
deriving DecidableEq

/-- The persona row fields used by the memory service: the memory and
    learning gates and the interaction counters that store_memory bumps. -/
structure Persona where
  id : Nat
  name : String
  status : String
  memory_enabled : Bool
  learning_enabled : Bool
  interaction_count : Nat
  last_interaction : Option Nat
deriving DecidableEq

/-- A chat message (role and content) as consumed by the service. -/
structure ChatMessage where
  role : String
  content : String
deriving DecidableEq

/-- Relational store plus the derived ChromaDB vector entries: vectors holds
    one (persona_id, memory_id) pair per indexed memory. -/
structure MemoryDB where
  memories : List PersonaMemory
  next_id : Nat
  vectors : List (Nat × Nat)
deriving DecidableEq

/-- The HTTPException raised by store_memory when persona.memory_enabled is
    false (status 400, detail "Memory is disabled for this persona"). -/
inductive StoreError where
  | memoryDisabled
deriving DecidableEq

instance instExceptDecEq {ε α : Type _} [DecidableEq ε] [DecidableEq α] :
    DecidableEq (Except ε α) := fun a b =>
  match a, b with
  | .error e, .error f =>
    if h : e = f then isTrue (h ▸ rfl) else isFalse (fun c => h (Except.error.inj c))
  | .error _, .ok _ => isFalse (fun c => Except.noConfusion c)
  | .ok _, .error _ => isFalse (fun c => Except.noConfusion c)
  | .ok x, .ok y =>
    if h : x = y then isTrue (h ▸ rfl) else isFalse (fun c => h (Except.ok.inj c))

/-- MemoryService.store_memory: raises the 400 error when memory is
    disabled; otherwise inserts the row exactly as given (the importance
    argument is written unmodified), writes the vector entry only when the
    embedding model and chroma client are available (vec_available), and
    bumps interaction_count and last_interaction on the persona row. -/
def store_memory (db : MemoryDB) (p : Persona) (memory_type content : String)
    (context : Option String) (importance : ℚ) (expires_at : Option Nat)
    (vec_available : Bool) (now : Nat) :
    Except StoreError (MemoryDB × PersonaMemory × Persona) :=
  if p.memory_enabled = false then
    .error .memoryDisabled
  else
    let mem : PersonaMemory :=
      { id := db.next_id, persona_id := p.id, memory_type := memory_type,
        content := content, context := context, importance := importance,
        last_accessed := now, created_at := now, expires_at := expires_at }
    let db' : MemoryDB :=
      { memories := db.memories ++ [mem],
        next_id := db.next_id + 1,
        vectors := if vec_available then db.vectors ++ [(p.id, mem.id)]
                   else db.vectors }
    let p' : Persona :=
      { p with interaction_count := p.interaction_count + 1,
               last_interaction := some now }
    .ok (db', mem, p')

/-- The non-expiry filter of retrieve_relevant_memories:
    expires_at IS NULL OR expires_at is strictly later than now. -/
def notExpired (now : Nat) (m : PersonaMemory) : Bool :=
  match m.expires_at with
  | none => true
  | some e => now < e

/-- The WHERE clause of the candidate query in retrieve_relevant_memories:
    owner match, importance at least min_importance, not expired, and the
    optional memory_type IN filter. -/
def memoryFilter (p : Persona) (memory_types : Option (List String))
    (min_importance : ℚ) (now : Nat) (m : PersonaMemory) : Bool :=
  m.persona_id == p.id
    && decide (min_importance ≤ m.importance)
    && notExpired now m
    && (match memory_types with
        | none => true
        | some ts => ts.contains m.memory_type)

/-- ORDER BY importance DESC, last_accessed DESC: a comes no later than b. -/
def FallbackRel (a b : PersonaMemory) : Prop :=
  b.importance < a.importance ∨
    (a.importance = b.importance ∧ b.last_accessed ≤ a.last_accessed)

instance instFallbackRelDecidable : DecidableRel FallbackRel := fun a b => by
  unfold FallbackRel
  exact inferInstance

/-- The candidate query of retrieve_relevant_memories: the filtered rows of
    the owner, ordered by (importance desc, last_accessed desc); the sort is
    a stable one, resolving remaining ties by row order. -/
def query_memories (db : MemoryDB) (p : Persona)
    (memory_types : Option (List String)) (min_importance : ℚ) (now : Nat) :
    List PersonaMemory :=
  List.insertionSort FallbackRel
    (db.memories.filter (memoryFilter p memory_types min_importance now))

/-- The default of the min_importance parameter of
    retrieve_relevant_memories (0.5). -/
def default_min_importance : ℚ := mkRat 1 2

/-- The default of the limit parameter of retrieve_relevant_memories. -/
def default_limit : Nat := 10

/-- Setting memory.last_accessed to the current time, as done to each
    memory appended from the vector walk. -/
def touch (now : Nat) (m : PersonaMemory) : PersonaMemory :=
  { m with last_accessed := now }

/-- Python truthiness of query.strip(): the string holds no non-whitespace
    character. -/
def strBlank (s : String) : Bool :=
  s.toList.all Char.isWhitespace

/-- MemoryService._rank_memories_by_relevance. The ChromaDB collection is
    modelled by vec_ranking, the ascending-distance ordering of the ids the
    index would return for this query; collection.query with n_results = k
    returns its first k entries (the chroma ids are the strings
    "memory_<id>", modelled directly by the numeric ids the code parses
    back out). The Python membership test `m not in ranked_memories` is
    object identity on rows mutated in place, so a candidate was appended
    exactly when its primary-key-unique id occurs among the walked ids. -/
def rank_memories_by_relevance (memories : List PersonaMemory)
    (vec_ranking : List Nat) (limit now : Nat) : List PersonaMemory :=
  if memories.isEmpty then memories.take limit
  else
    let taken_ids := vec_ranking.take (min memories.length (limit * 2))
    let ranked := taken_ids.filterMap
      (fun i => (memories.find? (fun m => m.id == i)).map (touch now))
    let remaining := memories.filter (fun m => !(taken_ids.contains m.id))
    (ranked ++ List.insertionSort FallbackRel remaining).take limit

/-- MemoryService.retrieve_relevant_memories: empty when the memory gate is
    off; otherwise the candidate query, then vector ranking when the
    embedding model and chroma client are available and query.strip() is
    non-empty, else the fallback prefix of the candidates. -/
def retrieve_relevant_memories (db : MemoryDB) (p : Persona) (query : String)
    (memory_types : Option (List String)) (limit : Nat) (min_importance : ℚ)
    (vec_available : Bool) (vec_ranking : List Nat) (now : Nat) :
    List PersonaMemory :=
  if p.memory_enabled = false then []
  else
    let all_memories := query_memories db p memory_types min_importance now
    if vec_available && !(strBlank query) then
      rank_memories_by_relevance all_memories vec_ranking limit now
    else
      all_memories.take limit

/-- MemoryService.get_memory_context: empty when memory is disabled or the
    history is empty; otherwise joins the last three message contents,
    retrieves at most max_memories memories for that text under the default
    min_importance, and formats the numbered RELEVANT MEMORIES block. -/
def get_memory_context (db : MemoryDB) (p : Persona)
    (conversation_history : List ChatMessage) (max_memories : Nat)
    (vec_available : Bool) (vec_ranking : List Nat) (now : Nat) : String :=
  if !p.memory_enabled || conversation_history.isEmpty then ""
  else
    let recent_context := String.intercalate " "
      ((conversation_history.drop (conversation_history.length - 3)).map
        (fun m => m.content))
    let relevant := retrieve_relevant_memories db p recent_context none
      max_memories default_min_importance vec_available vec_ranking now
    if relevant.isEmpty then ""
    else relevant.enum.foldl
      (fun acc im => acc ++ toString (im.1 + 1) ++ ". " ++ im.2.content ++ "\n")
      "RELEVANT MEMORIES:\n"

/-- Substring occurrence on character lists, the Python `word in content`
    membership test on strings. -/
def listHasSub (hay : List Char) (needle : List Char) : Bool :=
  match hay with
  | [] => needle.isEmpty
  | _ :: t => needle.isPrefixOf hay || listHasSub t needle

/-- The preference indicator words of learn_from_conversation. -/
def preference_words : List String :=
  ["like", "love", "hate", "prefer", "favorite"]

/-- The factual indicator words of learn_from_conversation. -/
def fact_words : List String :=
  ["is", "are", "was", "were", "has", "have"]

/-- The emotional indicator words of learn_from_conversation. -/
def emotion_words : List String :=
  ["feel", "happy", "sad", "angry", "excited", "worried"]

/-- message.content.lower() as a character list. -/
def lowerChars (s : String) : List Char :=
  s.toList.map Char.toLower

/-- The ordered lexical rules of learn_from_conversation: preference words
    give importance 0.8, else fact words give 0.7, else emotion words give
    0.9, else nothing; each word is matched as a substring of the
    lowercased text. -/
def classify (content : String) : Option (String × ℚ) :=
  let c := lowerChars content
  if preference_words.any (fun w => listHasSub c w.toList) then
    some ("preference", mkRat 8 10)
  else if fact_words.any (fun w => listHasSub c w.toList) then
    some ("fact", mkRat 7 10)
  else if emotion_words.any (fun w => listHasSub c w.toList) then
    some ("emotion", mkRat 9 10)
  else
    none

/-- The loop body of learn_from_conversation: walks the turns, stores each
    classified user turn via store_memory and collects it; an exception
    raised by store_memory is caught by the surrounding try and yields an
    empty result list with the session state reached so far. -/
def learnLoop (vec_available : Bool) (now : Nat) :
    MemoryDB → Persona → List ChatMessage → List ChatMessage →
    List ChatMessage × MemoryDB × Persona
  | db, p, [], acc => (acc.reverse, db, p)
  | db, p, msg :: rest, acc =>
    if msg.role == "user" then
      match classify msg.content with
      | some cl =>
        match store_memory db p cl.1 msg.content none cl.2 none
            vec_available now with
        | .ok r => learnLoop vec_available now r.1 r.2.2 rest (msg :: acc)
        | .error _ => ([], db, p)
      | none => learnLoop vec_available now db p rest acc
    else
      learnLoop vec_available now db p rest acc

/-- MemoryService.learn_from_conversation: an empty result when learning is
    disabled or the history is empty, else the learn loop. -/
def learn_from_conversation (db : MemoryDB) (p : Persona)
    (conversation_history : List ChatMessage) (vec_available : Bool)
    (now : Nat) : List ChatMessage × MemoryDB × Persona :=
  if !p.learning_enabled || conversation_history.isEmpty then
    ([], db, p)
  else
    learnLoop vec_available now db p conversation_history []

/-- The strict expiry test of cleanup_expired_memories:
    expires_at IS NOT NULL AND expires_at is strictly earlier than now. -/
def isExpiredStrict (now : Nat) (m : PersonaMemory) : Bool :=
  match m.expires_at with
  | none => false
  | some e => e < now

/-- MemoryService.cleanup_expired_memories: deletes the strictly expired
    rows from the relational store and returns their number; the vector
    entries are left untouched, since the service performs no chroma
    deletion here. -/
def cleanup_expired_memories (db : MemoryDB) (now : Nat) : Nat × MemoryDB :=
  let expired := db.memories.filter (isExpiredStrict now)
  (expired.length,
   { memories := db.memories.filter (fun m => !(isExpiredStrict now m)),
     next_id := db.next_id,
     vectors := db.vectors })

/-- Modelled from the spec, section 4.1: the query_candidates contract of
    the Memory Ledger, stated in the words of the spec for comparison with
    the candidate query of the service: all non-expired memories of the
    owner matching the category and minimum-importance filter, ordered by
    (importance desc, last_accessed desc). -/
def spec_query_candidates (db : MemoryDB) (owner_id : Nat)
    (categories : Option (List String)) (min_importance : ℚ) (now : Nat) :
    List PersonaMemory :=
  List.insertionSort FallbackRel
    (db.memories.filter (fun m =>
      notExpired now m
        && m.persona_id == owner_id
        && (match categories with
            | none => true
            | some cs => cs.contains m.memory_type)
        && decide (min_importance ≤ m.importance)))

/-- Modelled from the spec, section 4.3 step 4: walk the vector-index
    result in ascending-distance order, appending (and touching) the memory
    of each returned id found among the candidates and skipping the
    others. -/
def spec_walk (candidates : List PersonaMemory) (now : Nat) :
    List Nat → List PersonaMemory
  | [] => []
  | i :: rest =>
    match candidates.find? (fun m => m.id == i) with
    | some m => touch now m :: spec_walk candidates now rest
    | none => spec_walk candidates now rest

/-- Modelled from the spec, section 4.3 steps 3 to 6: query the index with
    k = min(candidate count, limit * 2), walk its result, append every
    candidate not already present in the walked list sorted by the ledger
    fallback ordering, and truncate to the limit. -/
def spec_two_pass_merge (candidates : List PersonaMemory)
    (vec_ranking : List Nat) (limit now : Nat) : List PersonaMemory :=
  if candidates = [] then []
  else
    let ranked := spec_walk candidates now
      (vec_ranking.take (min candidates.length (limit * 2)))
    let rest := List.insertionSort FallbackRel
      (candidates.filter (fun m => !(ranked.any (fun r => r.id == m.id))))
    (ranked ++ rest).take limit

/-- Modelled from the spec, section 4.4: the user turns of a history that
    the lexical rules classify, in order. -/
def classified_turns (history : List ChatMessage) : List ChatMessage :=
  history.filter (fun m => m.role == "user" && (classify m.content).isSome)

/-- Modelled from the spec, section 4.4: the ledger rows the Conversation
    Learner is expected to create for a history, with sequential ids, the
    verbatim turn text, and the category and importance of the first
    matching rule. -/
def learned_rows (next_id owner now : Nat) :
    List ChatMessage → List PersonaMemory
  | [] => []
  | msg :: rest =>
    if msg.role == "user" then
      match classify msg.content with
      | some cl =>
        { id := next_id, persona_id := owner, memory_type := cl.1,
          content := msg.content, context := none, importance := cl.2,
          last_accessed := now, created_at := now, expires_at := none }
          :: learned_rows (next_id + 1) owner now rest
      | none => learned_rows next_id owner now rest
    else
      learned_rows next_id owner now rest

/-- Unfolding of store_memory on a persona with the memory gate on. -/
theorem store_memory_eq_ok (db : MemoryDB) (p : Persona)
    (memory_type content : String) (context : Option String) (importance : ℚ)
    (expires_at : Option Nat) (vec_available : Bool) (now : Nat)
    (h : p.memory_enabled = true) :
    store_memory db p memory_type content context importance expires_at
        vec_available now =
      .ok
        ({ memories := db.memories ++
            [{ id := db.next_id, persona_id := p.id,
               memory_type := memory_type, content := content,
               context := context, importance := importance,
               last_accessed := now, created_at := now,
               expires_at := expires_at }],
           next_id := db.next_id + 1,
           vectors := if vec_available then db.vectors ++ [(p.id, db.next_id)]
                      else db.vectors },
         { id := db.next_id, persona_id := p.id, memory_type := memory_type,
           content := content, context := context, importance := importance,
           last_accessed := now, created_at := now, expires_at := expires_at },
         { p with interaction_count := p.interaction_count + 1,
                  last_interaction := some now }) := by
  unfold store_memory
  rw [h]
  simp

/-- The candidate filter of the service agrees pointwise with the filter of
    the spec contract (the conjuncts are the same, differently ordered). -/
theorem memoryFilter_eq_spec (p : Persona) (mt : Option (List String))
    (mi : ℚ) (now : Nat) (m : PersonaMemory) :
    memoryFilter p mt mi now m =
      (notExpired now m
        && m.persona_id == p.id
        && (match mt with
            | none => true
            | some cs => cs.contains m.memory_type)
        && decide (mi ≤ m.importance)) := by
  have h : ∀ a b c d : Bool, (a && b && c && d) = (c && a && d && b) := by
    decide
  exact h _ _ _ _

/-- The candidate query of the service is the query_candidates contract of
    the spec. -/
theorem query_memories_eq_spec (db : MemoryDB) (p : Persona)
    (mt : Option (List String)) (mi : ℚ) (now : Nat) :
    query_memories db p mt mi now = spec_query_candidates db p.id mt mi now := by
  unfold query_memories spec_query_candidates
  rw [List.filter_congr (fun x _ => memoryFilter_eq_spec p mt mi now x)]

/-- The spec walk is the filterMap the service computes. -/
theorem spec_walk_eq_filterMap (cands : List PersonaMemory) (now : Nat)
    (ids : List Nat) :
    spec_walk cands now ids =
      ids.filterMap
        (fun i => (cands.find? (fun m => m.id == i)).map (touch now)) := by
  induction ids with
  | nil => rfl
  | cons i rest ih =>
    unfold spec_walk
    cases h : cands.find? (fun m => m.id == i) with
    | none => simp [List.filterMap_cons, h, ih]
    | some x => simp [List.filterMap_cons, h, ih]

/-- Commutativity of the boolean equality test on naturals. -/
theorem natBeqComm (a b : Nat) : (a == b) = (b == a) := by
  by_cases h : a = b
  · simp [h]
  · simp [h, Ne.symm h]

/-- A candidate occurs in the walked list exactly when its id occurs among
    the walked vector ids. -/
theorem spec_walk_any_eq_contains (cands : List PersonaMemory) (now : Nat)
    (m : PersonaMemory) (hm : m ∈ cands) (ids : List Nat) :
    ((spec_walk cands now ids).any (fun r => r.id == m.id)) =
      ids.contains m.id := by
  induction ids with
  | nil => rfl
  | cons i rest ih =>
    unfold spec_walk
    cases h : cands.find? (fun m => m.id == i) with
    | none =>
      have hne : (m.id == i) = false := by
        have := (List.find?_eq_none.mp h) m hm
        simpa using this
      rw [ih, List.contains_cons, hne, Bool.false_or]
    | some x =>
      have hx : x.id = i := by
        have := List.find?_some h
        simpa using this
      simp only [List.any_cons, List.contains_cons, ih, touch]
      rw [hx, natBeqComm i m.id]

/-- The ranking of the service equals the deterministic two-pass merge of
    the spec, for every candidate list, vector ranking and limit. -/
theorem rank_eq_spec_merge (memories : List PersonaMemory)
    (vec_ranking : List Nat) (limit now : Nat) :
    rank_memories_by_relevance memories vec_ranking limit now =
      spec_two_pass_merge memories vec_ranking limit now := by
  by_cases hm : memories = []
  · subst hm
    simp [rank_memories_by_relevance, spec_two_pass_merge]
  · unfold rank_memories_by_relevance spec_two_pass_merge
    have hne : memories.isEmpty = false := by
      cases hmm : memories.isEmpty
      · rfl
      · exact absurd (List.isEmpty_iff.mp hmm) hm
    rw [hne, if_neg hm]
    simp only [Bool.false_eq_true, if_false]
    rw [spec_walk_eq_filterMap]
    have hfil :
        memories.filter
            (fun m =>
              !((vec_ranking.take (min memories.length (limit * 2))).contains
                m.id)) =
          memories.filter
            (fun m =>
              !((spec_walk memories now
                  (vec_ranking.take (min memories.length (limit * 2)))).any
                  (fun r => r.id == m.id))) := by
      apply List.filter_congr
      intro x hx
      rw [spec_walk_any_eq_contains memories now x hx]
    rw [hfil, spec_walk_eq_filterMap]

/-- Every element of the ranked list is a candidate, possibly with its
    last_accessed field set to now. -/
theorem mem_of_mem_rank {memories : List PersonaMemory}
    {vec_ranking : List Nat} {limit now : Nat} {x : PersonaMemory}
    (hx : x ∈ rank_memories_by_relevance memories vec_ranking limit now) :
    ∃ m, m ∈ memories ∧ (x = m ∨ x = touch now m) := by
  unfold rank_memories_by_relevance at hx
  by_cases he : memories.isEmpty
  · rw [if_pos he] at hx
    exact ⟨x, List.take_subset _ _ hx, Or.inl rfl⟩
  · rw [if_neg he] at hx
    have hx' := List.take_subset _ _ hx
    rcases List.mem_append.mp hx' with hA | hB
    · rcases List.mem_filterMap.mp hA with ⟨i, _, hfind⟩
      rcases Option.map_eq_some'.mp hfind with ⟨m, hm, hxm⟩
      exact ⟨m, List.mem_of_find?_eq_some hm, Or.inr hxm.symm⟩
    · have := List.mem_filter.mp (List.mem_insertionSort FallbackRel |>.mp hB)
      exact ⟨x, this.1, Or.inl rfl⟩

/-- Every element of the candidate query is a stored row passing the
    WHERE clause. -/
theorem mem_of_mem_query {db : MemoryDB} {p : Persona}
    {mt : Option (List String)} {mi : ℚ} {now : Nat} {x : PersonaMemory}
    (hx : x ∈ query_memories db p mt mi now) :
    x ∈ db.memories ∧ memoryFilter p mt mi now x = true := by
  unfold query_memories at hx
  exact List.mem_filter.mp (List.mem_insertionSort FallbackRel |>.mp hx)

/-- Every element of a retrieval result is a stored row of the database
    that passes the WHERE clause, possibly with its last_accessed field set
    to the retrieval time. -/
theorem mem_of_mem_retrieve {db : MemoryDB} {p : Persona} {query : String}
    {mt : Option (List String)} {limit : Nat} {mi : ℚ} {vec_available : Bool}
    {vec_ranking : List Nat} {now : Nat} {x : PersonaMemory}
    (hx : x ∈ retrieve_relevant_memories db p query mt limit mi vec_available
      vec_ranking now) :
    ∃ m, m ∈ db.memories ∧ memoryFilter p mt mi now m = true ∧
      (x = m ∨ x = touch now m) := by
  unfold retrieve_relevant_memories at hx
  by_cases hp : p.memory_enabled = false
  · rw [if_pos hp] at hx
    exact absurd hx (List.not_mem_nil x)
  · rw [if_neg hp] at hx
    by_cases hv : (vec_available && !(strBlank query)) = true
    · rw [if_pos hv] at hx
      rcases mem_of_mem_rank hx with ⟨m, hm, hxm⟩
      rcases mem_of_mem_query hm with ⟨hdb, hfil⟩
      exact ⟨m, hdb, hfil, hxm⟩
    · rw [if_neg hv] at hx
      rcases mem_of_mem_query (List.take_subset _ _ hx) with ⟨hdb, hfil⟩
      exact ⟨x, hdb, hfil, Or.inl rfl⟩

/-- Touching a memory does not change its expiry. -/
theorem notExpired_touch (now t : Nat) (m : PersonaMemory) :
    notExpired now (touch t m) = notExpired now m := rfl

/-- One step of the learn loop on a non-user turn: nothing happens. -/
theorem learnLoop_cons_other (vec_available : Bool) (now : Nat)
    (db : MemoryDB) (p : Persona) (msg : ChatMessage)
    (rest acc : List ChatMessage) (hrole : (msg.role == "user") = false) :
    learnLoop vec_available now db p (msg :: rest) acc =
      learnLoop vec_available now db p rest acc := by
  rw [learnLoop, if_neg (by simp [hrole])]

/-- One step of the learn loop on a user turn that no rule matches:
    nothing happens. -/
theorem learnLoop_cons_none (vec_available : Bool) (now : Nat)
    (db : MemoryDB) (p : Persona) (msg : ChatMessage)
    (rest acc : List ChatMessage) (hrole : (msg.role == "user") = true)
    (hc : classify msg.content = none) :
    learnLoop vec_available now db p (msg :: rest) acc =
      learnLoop vec_available now db p rest acc := by
  rw [learnLoop, if_pos hrole, hc]

/-- One step of the learn loop on a classified user turn: the turn is
    stored and collected. -/
theorem learnLoop_cons_store (vec_available : Bool) (now : Nat)
    (db : MemoryDB) (p : Persona) (msg : ChatMessage)
    (rest acc : List ChatMessage) (cl : String × ℚ)
    (hrole : (msg.role == "user") = true)
    (hc : classify msg.content = some cl) (hp : p.memory_enabled = true) :
    learnLoop vec_available now db p (msg :: rest) acc =
      learnLoop vec_available now
        { memories := db.memories ++
            [{ id := db.next_id, persona_id := p.id, memory_type := cl.1,
               content := msg.content, context := none, importance := cl.2,
               last_accessed := now, created_at := now, expires_at := none }],
          next_id := db.next_id + 1,
          vectors := if vec_available then db.vectors ++ [(p.id, db.next_id)]
                     else db.vectors }
        { p with interaction_count := p.interaction_count + 1,
                 last_interaction := some now }
        rest (msg :: acc) := by
  have hs := store_memory_eq_ok db p cl.1 msg.content none cl.2 none
    vec_available now hp
  rw [learnLoop, if_pos hrole, hc]
  simp only [hs]

/-- Unfolding of learned_rows on a non-user turn. -/
theorem learned_rows_cons_other (nid owner now : Nat) (msg : ChatMessage)
    (rest : List ChatMessage) (hrole : (msg.role == "user") = false) :
    learned_rows nid owner now (msg :: rest) =
      learned_rows nid owner now rest := by
  rw [learned_rows, if_neg (by simp [hrole])]

/-- Unfolding of learned_rows on an unclassified user turn. -/
theorem learned_rows_cons_none (nid owner now : Nat) (msg : ChatMessage)
    (rest : List ChatMessage) (hrole : (msg.role == "user") = true)
    (hc : classify msg.content = none) :
    learned_rows nid owner now (msg :: rest) =
      learned_rows nid owner now rest := by
  rw [learned_rows, if_pos hrole, hc]

/-- Unfolding of learned_rows on a classified user turn. -/
theorem learned_rows_cons_store (nid owner now : Nat) (msg : ChatMessage)
    (rest : List ChatMessage) (cl : String × ℚ)
    (hrole : (msg.role == "user") = true)
    (hc : classify msg.content = some cl) :
    learned_rows nid owner now (msg :: rest) =
      { id := nid, persona_id := owner, memory_type := cl.1,
        content := msg.content, context := none, importance := cl.2,
        last_accessed := now, created_at := now, expires_at := none }
        :: learned_rows (nid + 1) owner now rest := by
  rw [learned_rows, if_pos hrole, hc]

/-- Unfolding of classified_turns on a cons cell. -/
theorem classified_turns_cons (msg : ChatMessage)
    (rest : List ChatMessage) :
    classified_turns (msg :: rest) =
      if msg.role == "user" && (classify msg.content).isSome then
        msg :: classified_turns rest
      else classified_turns rest := by
  unfold classified_turns
  rw [List.filter_cons]

/-- Characterization of the learn loop on a persona with the memory gate
    on: it collects exactly the classified user turns and appends exactly
    the expected ledger rows, with sequential ids. -/
theorem learnLoop_spec (vec_available : Bool) (now : Nat) :
    ∀ (history : List ChatMessage) (db : MemoryDB) (p : Persona)
      (acc : List ChatMessage), p.memory_enabled = true →
      (learnLoop vec_available now db p history acc).1 =
          acc.reverse ++ classified_turns history ∧
        (learnLoop vec_available now db p history acc).2.1.memories =
          db.memories ++ learned_rows db.next_id p.id now history := by
  intro history
  induction history with
  | nil =>
    intro db p acc _
    unfold learnLoop classified_turns learned_rows
    simp
  | cons msg rest ih =>
    intro db p acc hp
    cases hrole : msg.role == "user" with
    | false =>
      rw [learnLoop_cons_other vec_available now db p msg rest acc hrole,
        learned_rows_cons_other db.next_id p.id now msg rest hrole,
        classified_turns_cons]
      simpa [hrole] using ih db p acc hp
    | true =>
      cases hc : classify msg.content with
      | none =>
        rw [learnLoop_cons_none vec_available now db p msg rest acc hrole hc,
          learned_rows_cons_none db.next_id p.id now msg rest hrole hc,
          classified_turns_cons]
        simpa [hrole, hc] using ih db p acc hp
      | some cl =>
        rw [learnLoop_cons_store vec_available now db p msg rest acc cl
            hrole hc hp,
          learned_rows_cons_store db.next_id p.id now msg rest cl hrole hc,
          classified_turns_cons]
        rcases ih
            ({ memories := db.memories ++
                [{ id := db.next_id, persona_id := p.id,
                   memory_type := cl.1, content := msg.content,
                   context := none, importance := cl.2,
                   last_accessed := now, created_at := now,
                   expires_at := none }],
               next_id := db.next_id + 1,
               vectors := if vec_available then
                   db.vectors ++ [(p.id, db.next_id)]
                 else db.vectors })
            ({ p with interaction_count := p.interaction_count + 1,
                      last_interaction := some now })
            (msg :: acc) hp with ⟨ihl, ihr⟩
        refine ⟨?_, ?_⟩
        · rw [ihl, List.reverse_cons, List.append_assoc]
          simp [hrole, hc]
        · rw [ihr]
          simp

/-- A persona with both gates on, used as a concrete test row. -/
def cP1 : Persona :=
  { id := 1, name := "p", status := "active", memory_enabled := true,
    learning_enabled := true, interaction_count := 0,
    last_interaction := none }

/-- The same persona with the memory gate off. -/
def cP0 : Persona := { cP1 with memory_enabled := false }

/-- An empty database. -/
def cDB0 : MemoryDB := { memories := [], next_id := 1, vectors := [] }

/-- A stored row last accessed at time 5, importance 0.9, no expiry. -/
def cMem9 : PersonaMemory :=
  { id := 1, persona_id := 1, memory_type := "fact", content := "c",
    context := none, importance := mkRat 9 10, last_accessed := 5,
    created_at := 5, expires_at := none }

/-- A database holding only cMem9. -/
def cDB9 : MemoryDB :=
  { memories := [cMem9], next_id := 2, vectors := [(1, 1)] }

/-- A non-expired row of importance 0.3, below the default threshold. -/
def cMem4 : PersonaMemory := { cMem9 with importance := mkRat 3 10 }

/-- A database holding only cMem4. -/
def cDB4 : MemoryDB :=
  { memories := [cMem4], next_id := 2, vectors := [(1, 1)] }

/-- A row whose expiry timestamp is exactly 100. -/
def cMem8 : PersonaMemory := { cMem9 with expires_at := some 100 }

/-- A database holding only cMem8. -/
def cDB8 : MemoryDB :=
  { memories := [cMem8], next_id := 2, vectors := [(1, 1)] }

/-- A row expiring at time 200, retrievable at time 100. -/
def cMemF : PersonaMemory := { cMem9 with expires_at := some 200 }

/-- A database holding only cMemF. -/
def cDBF : MemoryDB :=
  { memories := [cMemF], next_id := 2, vectors := [(1, 1)] }

/-- Row one of the end-to-end scenario: importance 0.9. -/
def cM1 : PersonaMemory :=
  { id := 1, persona_id := 1, memory_type := "fact", content := "a",
    context := none, importance := mkRat 9 10, last_accessed := 1,
    created_at := 1, expires_at := none }

/-- Row two of the end-to-end scenario: importance 0.5. -/
def cM2 : PersonaMemory :=
  { cM1 with
    id := 2, content := "b", importance := mkRat 5 10,
    last_accessed := 2, created_at := 2 }

/-- Row three of the end-to-end scenario: importance 0.95. -/
def cM3 : PersonaMemory :=
  { cM1 with
    id := 3, content := "c", importance := mkRat 95 100,
    last_accessed := 3, created_at := 3 }

/-- The three-row database of the end-to-end scenario. -/
def cDBx : MemoryDB :=
  { memories := [cM1, cM2, cM3], next_id := 4,
    vectors := [(1, 1), (1, 2), (1, 3)] }

/-- A user turn with a preference word. -/
def cMsgLove : ChatMessage := { role := "user", content := "I love hiking on weekends" }

/-- A user turn matching no rule. -/
def cMsgOk : ChatMessage := { role := "user", content := "ok" }

/-- An assistant turn containing a preference word. -/
def cMsgAsst : ChatMessage := { role := "assistant", content := "I love that" }

/-- A user turn with an emotion word. -/
def cMsgFeel : ChatMessage := { role := "user", content := "I feel anxious about the exam" }

/-- The concrete conversation of the learner scenario. -/
def cHist : List ChatMessage := [cMsgLove, cMsgOk, cMsgAsst, cMsgFeel]

/-- C1, counterexample: storing with importance 5.0 stores importance 5.0,
    which lies outside [0.0, 1.0] and is different from the 1.0 the claim
    requires, and a subsequent retrieval returns that importance 5.0. The
    service writes the importance argument unmodified; nothing clamps. -/
theorem C1_importance_not_clamped :
    ((store_memory cDB0 cP1 "conversation" "hi" none (mkRat 5 1) none false
        100).toOption.map (fun r => r.2.1.importance) = some (mkRat 5 1))
      ∧ ¬ (mkRat 5 1 ≤ 1)
      ∧ mkRat 5 1 ≠ 1
      ∧ ((store_memory cDB0 cP1 "conversation" "hi" none (mkRat 5 1) none
          false 100).toOption.map
            (fun r => (retrieve_relevant_memories r.1 cP1 "" none 10
              default_min_importance false [] 101).map
                (fun m => m.importance)) = some [mkRat 5 1]) := by
  decide

/-- C1, amended: store_memory writes the importance exactly as passed, with
    no clamping to [0.0, 1.0]; storing with importance 5.0 yields a stored
    and retrievable importance of 5.0. -/
theorem C1_importance_stored_verbatim (db : MemoryDB) (p : Persona)
    (memory_type content : String) (context : Option String)
    (importance : ℚ) (expires_at : Option Nat) (vec_available : Bool)
    (now : Nat) (h : p.memory_enabled = true) :
    ∃ r, store_memory db p memory_type content context importance expires_at
        vec_available now = .ok r
      ∧ r.2.1.importance = importance
      ∧ r.1.memories = db.memories ++ [r.2.1] := by
  rw [store_memory_eq_ok db p memory_type content context importance
    expires_at vec_available now h]
  exact ⟨_, rfl, rfl, rfl⟩

/-- C1, witness: the amended theorem applied at the concrete importance
    5.0 store. -/
theorem C1_importance_stored_verbatim_witness :
    ∃ r, store_memory cDB0 cP1 "conversation" "hi" none (mkRat 5 1) none
        false 100 = .ok r
      ∧ r.2.1.importance = mkRat 5 1
      ∧ r.1.memories = cDB0.memories ++ [r.2.1] :=
  C1_importance_stored_verbatim cDB0 cP1 "conversation" "hi" none
    (mkRat 5 1) none false 100 rfl

/-- C2: no element of any retrieval result has an expiry timestamp at or
    before the retrieval time; a memory with non-null expires_at at or
    before now never appears, whatever the query, filters, limit or vector
    state. -/
theorem C2_expired_never_returned (db : MemoryDB) (p : Persona)
    (query : String) (mt : Option (List String)) (limit : Nat) (mi : ℚ)
    (vec_available : Bool) (vec_ranking : List Nat) (now : Nat)
    (x : PersonaMemory)
    (hx : x ∈ retrieve_relevant_memories db p query mt limit mi
      vec_available vec_ranking now)
    (e : Nat) (he : x.expires_at = some e) : now < e := by
  rcases mem_of_mem_retrieve hx with ⟨m, _, hfil, hxm⟩
  have hexp : notExpired now m = true := by
    unfold memoryFilter at hfil
    simp only [Bool.and_eq_true] at hfil
    exact hfil.1.2
  have hexp' : notExpired now x = true := by
    rcases hxm with rfl | rfl
    · exact hexp
    · rw [notExpired_touch]
      exact hexp
  unfold notExpired at hexp'
  rw [he] at hexp'
  simpa using hexp'

/-- C2, witness: the theorem applied to a concrete retrieval returning a
    memory expiring at time 200, at retrieval time 100. -/
theorem C2_expired_never_returned_witness : (100 : Nat) < 200 :=
  C2_expired_never_returned cDBF cP1 "" none 10 default_min_importance
    false [] 100 cMemF (by decide) 200 rfl

/-- C3, counterexample: storing with empty content succeeds and creates a
    row with empty content; no ValidationError (nor any other error) is
    raised for empty content. -/
theorem C3_empty_content_store_succeeds :
    ((store_memory cDB0 cP1 "fact" "" none (mkRat 1 1) none false
        100).toOption.isSome = true)
      ∧ ((store_memory cDB0 cP1 "fact" "" none (mkRat 1 1) none false
          100).toOption.map (fun r => r.2.1.content) = some "") := by
  decide

/-- C3, amended: store_memory performs no content or owner validation and
    raises no ValidationError; it fails exactly when the memory gate of the
    persona is off (an HTTP 400, not a validation error), and with the
    embedding or vector backend unavailable the ledger write still succeeds
    and the vector entries are left unchanged. -/
theorem C3_store_error_behavior (db : MemoryDB) (p : Persona)
    (memory_type content : String) (context : Option String)
    (importance : ℚ) (expires_at : Option Nat) (vec_available : Bool)
    (now : Nat) :
    ((store_memory db p memory_type content context importance expires_at
        vec_available now).toOption.isSome = p.memory_enabled)
      ∧ (p.memory_enabled = true →
          ∃ r, store_memory db p memory_type content context importance
              expires_at false now = .ok r
            ∧ r.1.memories = db.memories ++ [r.2.1]
            ∧ r.1.vectors = db.vectors) := by
  constructor
  · cases hp : p.memory_enabled
    · unfold store_memory
      rw [hp]
      rfl
    · rw [store_memory_eq_ok db p memory_type content context importance
        expires_at vec_available now hp]
      rfl
  · intro hp
    rw [store_memory_eq_ok db p memory_type content context importance
      expires_at false now hp]
    exact ⟨_, rfl, rfl, rfl⟩

/-- C3, witness: the amended theorem applied to the empty-content store on
    the enabled persona. -/
theorem C3_store_error_behavior_witness :
    ((store_memory cDB0 cP1 "fact" "" none (mkRat 1 1) none false
        100).toOption.isSome = cP1.memory_enabled)
      ∧ ∃ r, store_memory cDB0 cP1 "fact" "" none (mkRat 1 1) none false
          100 = .ok r
        ∧ r.1.memories = cDB0.memories ++ [r.2.1]
        ∧ r.1.vectors = cDB0.vectors :=
  ⟨(C3_store_error_behavior cDB0 cP1 "fact" "" none (mkRat 1 1) none false
      100).1,
   (C3_store_error_behavior cDB0 cP1 "fact" "" none (mkRat 1 1) none false
      100).2 rfl⟩

/-- C4, counterexample: with the default min_importance, a non-expired
    owner memory of importance 0.3 is not returned by an empty-query
    retrieval at all: the default is 0.5, not the 0.0 the claim states. -/
theorem C4_default_min_importance_not_zero :
    (retrieve_relevant_memories cDB4 cP1 "" none 10 default_min_importance
        false [] 100 = [])
      ∧ cMem4 ∈ cDB4.memories
      ∧ cMem4.persona_id = cP1.id
      ∧ notExpired 100 cMem4 = true
      ∧ (mkRat 0 1 ≤ cMem4.importance)
      ∧ ¬ (default_min_importance ≤ cMem4.importance) := by
  decide

/-- C4, amended: when the query text is empty or whitespace-only, or the
    embedding provider or vector index is unavailable, retrieval returns
    the first limit elements of the spec query_candidates contract for the
    min_importance actually passed (whose default in the service is 0.5,
    not 0.0): all non-expired owner memories passing the category and
    importance filters, ordered by (importance desc, last_accessed desc). -/
theorem C4_fallback_is_candidate_head (db : MemoryDB) (p : Persona)
    (query : String) (mt : Option (List String)) (limit : Nat) (mi : ℚ)
    (vec_available : Bool) (vec_ranking : List Nat) (now : Nat)
    (hp : p.memory_enabled = true)
    (hv : (vec_available && !(strBlank query)) = false) :
    retrieve_relevant_memories db p query mt limit mi vec_available
        vec_ranking now =
      (spec_query_candidates db p.id mt mi now).take limit := by
  unfold retrieve_relevant_memories
  rw [if_neg (by rw [hp]; exact fun h => Bool.noConfusion h), if_neg (by
    rw [hv]; exact fun h => Bool.noConfusion h)]
  rw [query_memories_eq_spec]

/-- C4, witness: the end-to-end scenario, importances 0.9, 0.5, 0.95 and
    an empty query with limit 2: via the amended theorem the result is the
    candidate prefix, and it evaluates to the 0.95 row followed by the 0.9
    row. -/
theorem C4_fallback_is_candidate_head_witness :
    (retrieve_relevant_memories cDBx cP1 "" none 2 default_min_importance
        true [] 100 =
      (spec_query_candidates cDBx cP1.id none default_min_importance
        100).take 2)
      ∧ retrieve_relevant_memories cDBx cP1 "" none 2
          default_min_importance true [] 100 = [cM3, cM1] :=
  ⟨C4_fallback_is_candidate_head cDBx cP1 "" none 2
      default_min_importance true [] 100 rfl (by decide),
   by decide⟩

/-- C5: for a non-empty query with the vector path available, the
    retrieval result equals the spec two-pass merge over the candidate
    list: walk the first min(candidate count, limit * 2) vector ids in
    ascending-distance order appending and touching the candidates they
    name, append the leftover candidates in fallback order, truncate to
    the limit. -/
theorem C5_vector_path_is_two_pass_merge (db : MemoryDB) (p : Persona)
    (query : String) (mt : Option (List String)) (limit : Nat) (mi : ℚ)
    (vec_ranking : List Nat) (now : Nat) (hp : p.memory_enabled = true)
    (hq : strBlank query = false) :
    retrieve_relevant_memories db p query mt limit mi true vec_ranking now =
      spec_two_pass_merge (query_memories db p mt mi now) vec_ranking
        limit now := by
  unfold retrieve_relevant_memories
  rw [if_neg (by rw [hp]; exact fun h => Bool.noConfusion h),
    if_pos (by rw [hq]; rfl)]
  exact rank_eq_spec_merge _ _ _ _

/-- C5, witness: a concrete vector ranking naming ids 2, 9 and 1 over the
    three-row database: the theorem equates service and spec merge, and
    the merge evaluates to the touched id-2 row, the touched id-1 row
    (id 9 is skipped as not a candidate). -/
theorem C5_vector_path_is_two_pass_merge_witness :
    (retrieve_relevant_memories cDBx cP1 "q" none 2 (mkRat 0 1) true
        [2, 9, 1] 100 =
      spec_two_pass_merge (query_memories cDBx cP1 none (mkRat 0 1) 100)
        [2, 9, 1] 2 100)
      ∧ spec_two_pass_merge (query_memories cDBx cP1 none (mkRat 0 1) 100)
          [2, 9, 1] 2 100 = [touch 100 cM2, touch 100 cM1] :=
  ⟨C5_vector_path_is_two_pass_merge cDBx cP1 "q" none 2 (mkRat 0 1)
      [2, 9, 1] 100 rfl (by decide),
   by decide⟩

/-- C6: the Conversation Learner returns an empty result without any
    exception when learning is disabled; otherwise (with the memory gate
    on, which storage requires) it collects exactly the user turns
    classified by the ordered lexical rules and stores exactly the
    corresponding ledger rows, category and importance given by the first
    matching rule; a turn matching no rule, or with a non-user role,
    creates no memory. -/
theorem C6_learner_behavior (db : MemoryDB) (p : Persona)
    (history : List ChatMessage) (vec_available : Bool) (now : Nat) :
    (p.learning_enabled = false →
      learn_from_conversation db p history vec_available now = ([], db, p))
      ∧ (p.learning_enabled = true → p.memory_enabled = true →
          (learn_from_conversation db p history vec_available now).1 =
              classified_turns history
            ∧ (learn_from_conversation db p history vec_available
                now).2.1.memories =
              db.memories ++ learned_rows db.next_id p.id now history) := by
  constructor
  · intro hl
    unfold learn_from_conversation
    rw [hl]
    rfl
  · intro hl hp
    by_cases hemp : history = []
    · subst hemp
      unfold learn_from_conversation classified_turns learned_rows
      simp
    · have hne : history.isEmpty = false := by
        cases h2 : history.isEmpty
        · rfl
        · exact absurd (List.isEmpty_iff.mp h2) hemp
      have hspec := learnLoop_spec vec_available now history db p [] hp
      unfold learn_from_conversation
      rw [hl, hne]
      simpa using hspec

/-- C6, witness: the four-turn conversation: the love turn is classified
    preference, the ok turn matches no rule, the assistant turn is
    skipped, the feel turn is classified emotion; exactly two rows are
    stored, with importances 0.8 and 0.9. -/
theorem C6_learner_behavior_witness :
    ((learn_from_conversation cDB0 cP1 cHist false 100).1 =
        [cMsgLove, cMsgFeel])
      ∧ ((learn_from_conversation cDB0 cP1 cHist false
          100).2.1.memories.map (fun m => (m.memory_type, m.importance)) =
        [("preference", mkRat 8 10), ("emotion", mkRat 9 10)]) := by
  have h := (C6_learner_behavior cDB0 cP1 cHist false 100).2 rfl rfl
  constructor
  · rw [h.1]
    decide
  · rw [h.2]
    decide

/-- C7, counterexample: on a persona with the memory gate off,
    store_memory raises the HTTP 400 error instead of being a no-op. -/
theorem C7_disabled_store_raises :
    store_memory cDB0 cP0 "fact" "x" none (mkRat 1 1) none false 100 =
      .error .memoryDisabled := by
  decide

/-- C7, amended: with the memory gate off, retrieval returns the empty
    list and the memory context is the empty string without any exception,
    but store_memory is not a no-op: it raises the HTTP 400 error. -/
theorem C7_disabled_gate_behavior (db : MemoryDB) (p : Persona)
    (query : String) (mt : Option (List String)) (limit : Nat) (mi : ℚ)
    (vec_available : Bool) (vec_ranking : List Nat) (now : Nat)
    (history : List ChatMessage) (max_memories : Nat)
    (hp : p.memory_enabled = false) :
    retrieve_relevant_memories db p query mt limit mi vec_available
        vec_ranking now = []
      ∧ get_memory_context db p history max_memories vec_available
          vec_ranking now = ""
      ∧ ∀ (memory_type content : String) (context : Option String)
          (importance : ℚ) (expires_at : Option Nat),
          store_memory db p memory_type content context importance
            expires_at vec_available now = .error .memoryDisabled := by
  refine ⟨?_, ?_, ?_⟩
  · unfold retrieve_relevant_memories
    rw [if_pos hp]
  · unfold get_memory_context
    rw [if_pos (by rw [hp]; rfl)]
  · intro memory_type content context importance expires_at
    unfold store_memory
    rw [if_pos hp]

/-- C7, witness: the amended theorem applied to the disabled persona over
    the one-row database. -/
theorem C7_disabled_gate_behavior_witness :
    retrieve_relevant_memories cDB9 cP0 "hello" none 10
        default_min_importance true [1] 100 = []
      ∧ get_memory_context cDB9 cP0 [cMsgLove] 5 true [1] 100 = ""
      ∧ store_memory cDB9 cP0 "fact" "x" none (mkRat 1 1) none true 100 =
          .error .memoryDisabled := by
  have h := C7_disabled_gate_behavior cDB9 cP0 "hello" none 10
    default_min_importance true [1] 100 [cMsgLove] 5 rfl
  exact ⟨h.1, h.2.1, h.2.2 "fact" "x" none (mkRat 1 1) none⟩

/-- C8, counterexample: a row whose expires_at equals now is not purged
    (the service compares strictly), and nothing is removed from the
    vector entries; the claim requires purging at expires_at equal to
    now. -/
theorem C8_boundary_row_not_purged :
    cleanup_expired_memories cDB8 100 = (0, cDB8)
      ∧ cMem8.expires_at = some 100
      ∧ cMem8 ∈ cDB8.memories := by
  decide

/-- C8, amended: the sweep deletes exactly the rows with non-null
    expires_at strictly earlier than now, returns their number, and leaves
    the vector-index entries (and the id counter) untouched: no
    vector-index deletion is performed at all. -/
theorem C8_cleanup_behavior (db : MemoryDB) (now : Nat) :
    (cleanup_expired_memories db now).1 =
        (db.memories.filter (isExpiredStrict now)).length
      ∧ (∀ m, m ∈ (cleanup_expired_memories db now).2.memories ↔
          m ∈ db.memories ∧ isExpiredStrict now m = false)
      ∧ (cleanup_expired_memories db now).2.vectors = db.vectors
      ∧ (cleanup_expired_memories db now).2.next_id = db.next_id := by
  refine ⟨rfl, ?_, rfl, rfl⟩
  intro m
  unfold cleanup_expired_memories
  simp [List.mem_filter]

/-- C9, counterexample: an empty-query (ledger fallback) retrieval returns
    the stored row with its last_accessed unchanged at 5, not set to the
    retrieval time 100. -/
theorem C9_fallback_does_not_touch :
    retrieve_relevant_memories cDB9 cP1 "" none 10 default_min_importance
        true [] 100 = [cMem9]
      ∧ cMem9.last_accessed = 5
      ∧ (5 : Nat) ≠ 100 := by
  decide

/-- C9, amended: on the ledger-fallback path retrieval mutates nothing at
    all (every returned element is a stored row unchanged); in general
    every returned element is a stored row either unchanged or with only
    its last_accessed field set to the retrieval time (the touch applied
    on the vector walk), so no field other than last_accessed is ever
    mutated. -/
theorem C9_retrieval_frame (db : MemoryDB) (p : Persona) (query : String)
    (mt : Option (List String)) (limit : Nat) (mi : ℚ)
    (vec_available : Bool) (vec_ranking : List Nat) (now : Nat) :
    ((vec_available && !(strBlank query)) = false →
      ∀ x ∈ retrieve_relevant_memories db p query mt limit mi vec_available
        vec_ranking now, x ∈ db.memories)
      ∧ (∀ x ∈ retrieve_relevant_memories db p query mt limit mi
          vec_available vec_ranking now,
          ∃ m ∈ db.memories, x = m ∨ x = touch now m) := by
  constructor
  · intro hv x hx
    unfold retrieve_relevant_memories at hx
    by_cases hp : p.memory_enabled = false
    · rw [if_pos hp] at hx
      exact absurd hx (List.not_mem_nil x)
    · rw [if_neg hp,
        if_neg (by rw [hv]; exact fun h => Bool.noConfusion h)] at hx
      exact (mem_of_mem_query (List.take_subset _ _ hx)).1
  · intro x hx
    rcases mem_of_mem_retrieve hx with ⟨m, hdb, _, hxm⟩
    exact ⟨m, hdb, hxm⟩

/-- C9, witness: the frame theorem applied to the concrete fallback
    retrieval over the one-row database. -/
theorem C9_retrieval_frame_witness : cMem9 ∈ cDB9.memories :=
  (C9_retrieval_frame cDB9 cP1 "" none 10 default_min_importance true []
    100).1 (by decide) cMem9 (by decide)

/-- C10: every successful store_memory call returns the persona row with
    interaction_count incremented by exactly one and last_interaction set
    to the current time, all other persona fields unchanged. -/
theorem C10_persona_counters_bumped (db : MemoryDB) (p : Persona)
    (memory_type content : String) (context : Option String)
    (importance : ℚ) (expires_at : Option Nat) (vec_available : Bool)
    (now : Nat) (r : MemoryDB × PersonaMemory × Persona)
    (h : store_memory db p memory_type content context importance
      expires_at vec_available now = .ok r) :
    r.2.2 = { p with interaction_count := p.interaction_count + 1,
                     last_interaction := some now } := by
  cases hp : p.memory_enabled
  · unfold store_memory at h
    rw [hp, if_pos rfl] at h
    exact Except.noConfusion h
  · rw [store_memory_eq_ok db p memory_type content context importance
      expires_at vec_available now hp] at h
    have h2 := Except.ok.inj h
    rw [← h2, hp]

/-- C10, witness: the theorem applied to a concrete successful store. -/
theorem C10_persona_counters_bumped_witness :
    ∃ r, store_memory cDB0 cP1 "fact" "x" none (mkRat 1 1) none false
        100 = .ok r
      ∧ r.2.2 = { cP1 with interaction_count := cP1.interaction_count + 1,
                           last_interaction := some 100 } :=
  ⟨_, rfl, C10_persona_counters_bumped cDB0 cP1 "fact" "x" none
    (mkRat 1 1) none false 100 _ rfl⟩
